import Mathlib

/-!
# Verification of `music_project` against its specification

Shallow embedding of the repository's Python sources:
* `src/utils.py` — `labels_match`, `spotify_audio_features` (with its local
  helpers `auth_update` and `save_batch`), `artist_stats`, `genres_popul`;
* `src/music_data_scraper/music_data_scraper/spiders/billboard.py` — the
  Billboard spider's weekly pagination;
* `src/music_data_scraper/music_data_scraper/itemloaders.py` and `items.py` —
  the chart-row item schema and its field input processors.

Strings are Lean `String`s, Python floats are modelled as `ℚ`, the network
is modelled by explicit lists of pending responses, and files by explicit
write traces.
-/

namespace MusicProject

/-! ## `labels_match` (src/utils.py lines 14–78) -/

/-- Right single quotation mark U+2019, the character replaced by `'` in
`re.sub(r'’', '\'', …)`. -/
def rsquo : Char := Char.ofNat 0x2019

/-- No-break space U+00A0, the third alternative of the split pattern
`re.split(r', | |\xa0', …)`. -/
def nbsp : Char := Char.ofNat 0x00A0

/-- `re.sub(r'’', '\'', s)`: replace every right single quote by an
apostrophe. -/
def subQuote (s : String) : String :=
  String.mk (s.data.map (fun c => if c = rsquo then '\'' else c))

/-- `re.sub(r'!|\[|\]|\(|\)', '', s)`: delete the characters `!`, `[`, `]`,
`(`, `)`. -/
def stripPunct (s : String) : String :=
  String.mk (s.data.filter
    (fun c => !(c == '!' || c == '[' || c == ']' || c == '(' || c == ')')))

/-- Python `str.lower` restricted to its ASCII action, which is all the
sources rely on. -/
def pyLower (s : String) : String :=
  String.mk (s.data.map Char.toLower)

/-- `re.split(r', | |\xa0', s)` on the character list: at each position the
alternatives `", "`, `" "`, `"\xa0"` are tried in order; the result always
has at least one (possibly empty) token. -/
def splitTokens : List Char → List (List Char)
  | [] => [[]]
  | ',' :: ' ' :: rest => [] :: splitTokens rest
  | ' ' :: rest => [] :: splitTokens rest
  | c :: rest =>
    if c = nbsp then
      [] :: splitTokens rest
    else
      match splitTokens rest with
      | [] => [[c]]
      | t :: ts => (c :: t) :: ts

/-- Artist-label tokenization of `labels_match`: replace `’` by `'`,
lowercase, split on `", "` / `" "` / NBSP. -/
def artistTokens (s : String) : List (List Char) :=
  splitTokens (pyLower (subQuote s)).data

/-- Song-label tokenization of `labels_match`: replace `’` by `'`, delete
`! [ ] ( )`, lowercase, split on `", "` / `" "` / NBSP. -/
def songTokens (s : String) : List (List Char) :=
  splitTokens (pyLower (stripPunct (subQuote s))).data

/-- The one-directional overlap count: `for word in ts0: if word in ts1`. -/
def overlapCount (ts0 ts1 : List (List Char)) : Nat :=
  ts0.countP (fun w => ts1.contains w)

/-- The match coefficient of `labels_match`: the maximum of the two
directional overlap fractions. -/
def matchCoef (ts0 ts1 : List (List Char)) : ℚ :=
  max ((overlapCount ts0 ts1 : ℚ) / (ts0.length : ℚ))
      ((overlapCount ts1 ts0 : ℚ) / (ts1.length : ℚ))

/-- `labels_match(original_labels, compared_labels, match_thresh=0.5)` from
src/utils.py: returns `false` when a compared label is the string `"NaN"`,
otherwise compares both token-overlap coefficients against
`match_thresh - 1e-5`. -/
def labels_match (original_labels compared_labels : List String)
    (match_thresh : ℚ := 1/2) : Bool :=
  let thresh : ℚ := match_thresh - 1/100000
  let artist_0 := original_labels.getD 0 ""
  let song_0 := original_labels.getD 1 ""
  let artist_1 := compared_labels.getD 0 ""
  let song_1 := compared_labels.getD 1 ""
  if artist_1 = "NaN" ∨ song_1 = "NaN" then
    false
  else
    let coef_a := matchCoef (artistTokens artist_0) (artistTokens artist_1)
    let coef_s := matchCoef (songTokens song_0) (songTokens song_1)
    decide (coef_a ≥ thresh ∧ coef_s ≥ thresh)

/-- The split result is never the empty list: every branch of `splitTokens`
produces at least one (possibly empty) token, exactly as `re.split`. -/
theorem splitTokens_ne_nil (l : List Char) : splitTokens l ≠ [] := by
  rw [splitTokens.eq_def]
  split
  · simp
  · simp
  · simp
  · split
    · simp
    · split <;> simp

/-- A token list completely overlaps with itself. -/
theorem overlapCount_self (ts : List (List Char)) :
    overlapCount ts ts = ts.length := by
  unfold overlapCount
  rw [List.countP_eq_length]
  intro a ha
  simpa using ha

/-- The match coefficient of a nonempty token list against itself is `1`. -/
theorem matchCoef_self (ts : List (List Char)) (h : ts ≠ []) :
    matchCoef ts ts = 1 := by
  have hl : (ts.length : ℚ) ≠ 0 :=
    Nat.cast_ne_zero.mpr (List.length_pos.mpr h).ne'
  unfold matchCoef
  rw [overlapCount_self, div_self hl, max_self]

/-- Artist tokenization is never empty. -/
theorem artistTokens_ne_nil (s : String) : artistTokens s ≠ [] :=
  splitTokens_ne_nil _

/-- Song tokenization is never empty. -/
theorem songTokens_ne_nil (s : String) : songTokens s ≠ [] :=
  splitTokens_ne_nil _

/-- Unfolding lemma: away from the `"NaN"` null check, `labels_match` is the
double threshold comparison of the two match coefficients. -/
theorem labels_match_eval (a0 s0 a1 s1 : String) (θ : ℚ)
    (ha : a1 ≠ "NaN") (hs : s1 ≠ "NaN") :
    labels_match [a0, s0] [a1, s1] θ = true ↔
      (matchCoef (artistTokens a0) (artistTokens a1) ≥ θ - 1/100000 ∧
       matchCoef (songTokens s0) (songTokens s1) ≥ θ - 1/100000) := by
  simp [labels_match, ha, hs]

/-- C1: for literal (artist, song) label pairs whose compared labels are not
the string `"NaN"`, `labels_match` returns `true` iff both the artist and
the song token-overlap coefficients reach the threshold less the `1e-5`
tolerance, where each coefficient is the maximum of the two directional
overlap fractions over the normalized token lists; in particular, labels
that agree after the casing/punctuation normalization match at the default
threshold `0.5`. -/
theorem labels_match_spec :
    (∀ (a0 s0 a1 s1 : String) (θ : ℚ), a1 ≠ "NaN" → s1 ≠ "NaN" →
      (labels_match [a0, s0] [a1, s1] θ = true ↔
        (matchCoef (artistTokens a0) (artistTokens a1) ≥ θ - 1/100000 ∧
         matchCoef (songTokens s0) (songTokens s1) ≥ θ - 1/100000)))
    ∧
    (∀ (a0 s0 a1 s1 : String), a1 ≠ "NaN" → s1 ≠ "NaN" →
      pyLower (subQuote a0) = pyLower (subQuote a1) →
      pyLower (stripPunct (subQuote s0)) = pyLower (stripPunct (subQuote s1)) →
      labels_match [a0, s0] [a1, s1] (1/2) = true) := by
  refine ⟨fun a0 s0 a1 s1 θ ha hs => labels_match_eval a0 s0 a1 s1 θ ha hs,
    ?_⟩
  intro a0 s0 a1 s1 ha hs hA hS
  have h1 : artistTokens a0 = artistTokens a1 := by
    unfold artistTokens; rw [hA]
  have h2 : songTokens s0 = songTokens s1 := by
    unfold songTokens; rw [hS]
  rw [labels_match_eval a0 s0 a1 s1 (1/2) ha hs, h1, h2,
    matchCoef_self _ (artistTokens_ne_nil a1),
    matchCoef_self _ (songTokens_ne_nil s1)]
  norm_num

/-- C1 witness: the casing/punctuation-normalized pair
`("The Beatles", "Hey Jude!")` vs `("the beatles", "hey jude")` satisfies
the hypotheses and matches. -/
theorem labels_match_spec_witness :
    ("the beatles" : String) ≠ "NaN" ∧ ("hey jude" : String) ≠ "NaN" ∧
    labels_match ["The Beatles", "Hey Jude!"] ["the beatles", "hey jude"]
      (1/2) = true :=
  ⟨by decide, by decide,
    labels_match_spec.2 "The Beatles" "Hey Jude!" "the beatles" "hey jude"
      (by decide) (by decide) (by decide) (by decide)⟩

/-- C9: `labels_match` returns `false` whenever the compared artist label or
the compared song label equals the literal string `"NaN"`, for every
original pair and every threshold; the check is applied only to the second
argument, so the function is not symmetric: with first argument
`["NaN", "x"]` and second `["nan", "x"]` it returns `true`, while swapping
the arguments returns `false`. -/
theorem labels_match_nan_asymmetric :
    (∀ (a0 s0 s1 : String) (θ : ℚ),
      labels_match [a0, s0] ["NaN", s1] θ = false)
    ∧ (∀ (a0 s0 a1 : String) (θ : ℚ),
      labels_match [a0, s0] [a1, "NaN"] θ = false)
    ∧ labels_match ["NaN", "x"] ["nan", "x"] (1/2) = true
    ∧ labels_match ["nan", "x"] ["NaN", "x"] (1/2) = false := by
  refine ⟨?_, ?_, ?_, ?_⟩
  · intro a0 s0 s1 θ
    simp [labels_match]
  · intro a0 s0 a1 θ
    simp [labels_match]
  · have h1 : artistTokens "NaN" = artistTokens "nan" := by decide
    have ha : ("nan" : String) ≠ "NaN" := by decide
    have hs : ("x" : String) ≠ "NaN" := by decide
    rw [labels_match_eval "NaN" "x" "nan" "x" (1/2) ha hs, h1,
      matchCoef_self _ (artistTokens_ne_nil "nan"),
      matchCoef_self _ (songTokens_ne_nil "x")]
    norm_num
  · simp [labels_match]

/-! ## `artist_stats` (src/utils.py lines 320–431) -/

/-- One chart-row record of the Billboard Hot 100 data set, the row type of
the `hot_100` data frame consumed by `artist_stats`. Dates are encoded as
day numbers. -/
structure ChartRow where
  date : Nat
  pos : Int
  artist : String
  song : String
  last_week : Option Int
  peak_pos : Int
  wks_on_chart : Int
deriving DecidableEq, Repr

/-- The `score` column assigned by `artist_stats`: `101 - x.pos`. -/
def score (r : ChartRow) : Int := 101 - r.pos

/-- `hot_100.query(f'artist == "{artist}"')`: the artist's exact-name
(solo) rows. -/
def solo_df (hot_100 : List ChartRow) (artist : String) : List ChartRow :=
  hot_100.filter (fun r => r.artist == artist)

/-- `hot_100[hot_100.artist.str.startswith(artist) &
(hot_100.artist != artist)]`: the collaboration rows. -/
def colab_df (hot_100 : List ChartRow) (artist : String) : List ChartRow :=
  hot_100.filter (fun r => r.artist.startsWith artist && r.artist != artist)

/-- `solo_df.score.sum()`: the total score over the solo rows. -/
def soloScore (hot_100 : List ChartRow) (artist : String) : Int :=
  ((solo_df hot_100 artist).map score).sum

/-- `solo_df.song.nunique()`: the number of distinct solo song titles. -/
def soloSongCount (hot_100 : List ChartRow) (artist : String) : Nat :=
  ((solo_df hot_100 artist).map (fun r => r.song)).dedup.length

/-- `np.union1d(solo_df.date.values, colab_df.date.values).size`: the
number of weeks on the chart. -/
def weeksOnChart (hot_100 : List ChartRow) (artist : String) : Nat :=
  (((solo_df hot_100 artist).map (fun r => r.date)) ++
    ((colab_df hot_100 artist).map (fun r => r.date))).dedup.length

/-- C2: `artist_stats` aggregates per-artist statistics as the spec states:
each appearance scores `101` minus its position and the solo score sums
these over the exact-name rows; the solo-song count is the number of
distinct song titles among those rows; the collaboration rows are exactly
the rows whose artist field starts with the artist's name but differs from
it; and the weeks-on-chart count is the cardinality of the set union of
the solo dates and the collaboration dates, each week counted once. -/
theorem artist_stats_spec (hot_100 : List ChartRow) (artist : String) :
    soloScore hot_100 artist =
      ((hot_100.filter (fun r => r.artist == artist)).map
        (fun r => 101 - r.pos)).sum
    ∧ (∀ r : ChartRow, r ∈ solo_df hot_100 artist ↔
        r ∈ hot_100 ∧ r.artist = artist)
    ∧ soloSongCount hot_100 artist =
        ((solo_df hot_100 artist).map (fun r => r.song)).toFinset.card
    ∧ (∀ r : ChartRow, r ∈ colab_df hot_100 artist ↔
        r ∈ hot_100 ∧ r.artist.startsWith artist = true ∧ r.artist ≠ artist)
    ∧ weeksOnChart hot_100 artist =
        (((solo_df hot_100 artist).map (fun r => r.date)).toFinset ∪
         ((colab_df hot_100 artist).map (fun r => r.date)).toFinset).card := by
  refine ⟨rfl, ?_, ?_, ?_, ?_⟩
  · intro r
    simp [solo_df, List.mem_filter]
  · simp [soloSongCount, List.card_toFinset]
  · intro r
    simp [colab_df, List.mem_filter, and_assoc]
  · simp [weeksOnChart, ← List.toFinset_append, List.card_toFinset]

/-! ## `BillboardItem` and `BillboardItemLoader`
(src/music_data_scraper/music_data_scraper/items.py and itemloaders.py) -/

/-- Result of a Python numeric field processor: an `int`, the float `NaN`,
or a raised exception (`int()` on a non-numeric string). -/
inductive PyVal where
  | int (n : Int)
  | nan
  | err
deriving DecidableEq, Repr

/-- Python `str.strip()`: remove leading and trailing whitespace. -/
def pyStrip (s : String) : String :=
  String.mk
    (((s.data.dropWhile Char.isWhitespace).reverse.dropWhile
      Char.isWhitespace).reverse)

/-- `st = str.strip` of `BillboardItemLoader`. -/
def st (s : String) : String := pyStrip s

/-- Accumulating digits of a Python integer literal; a single `_` is
allowed between digits. -/
def parseDigitsGo (acc : Nat) : List Char → Option Nat
  | [] => some acc
  | '_' :: c :: rest =>
    if c.isDigit then parseDigitsGo (acc * 10 + (c.toNat - 48)) rest else none
  | c :: rest =>
    if c.isDigit then parseDigitsGo (acc * 10 + (c.toNat - 48)) rest else none

/-- A nonempty digit run (underscores allowed between digits). -/
def parseDigitsU : List Char → Option Nat
  | [] => none
  | c :: rest =>
    if c.isDigit then parseDigitsGo (c.toNat - 48) rest else none

/-- Python `int(s)` on an already whitespace-stripped string: an optional
sign followed by digits; anything else raises `ValueError`. -/
def pyInt (s : String) : PyVal :=
  match s.data with
  | '+' :: rest =>
    match parseDigitsU rest with
    | some n => .int n
    | none => .err
  | '-' :: rest =>
    match parseDigitsU rest with
    | some n => .int (-(n : Int))
    | none => .err
  | l =>
    match parseDigitsU l with
    | some n => .int n
    | none => .err

/-- `pos_in = MapCompose(st, int)`. -/
def pos_in (s : String) : PyVal := pyInt (st s)

/-- `artist_in = MapCompose(st)`. -/
def artist_in (s : String) : String := st s

/-- `song_in = MapCompose(st)`. -/
def song_in (s : String) : String := st s

/-- `last_week_in = MapCompose(st, lambda x: int(x) if x != '-' else
float("NaN"))`: the strip runs first, then the dash test. -/
def last_week_in (s : String) : PyVal :=
  let x := st s
  if x ≠ "-" then pyInt x else .nan

/-- `peak_pos_in = MapCompose(st, int)`. -/
def peak_pos_in (s : String) : PyVal := pyInt (st s)

/-- `wks_on_chart_in = MapCompose(st, int)`. -/
def wks_on_chart_in (s : String) : PyVal := pyInt (st s)

/-- `BillboardItem` (items.py): exactly the seven declared fields. -/
structure BillboardItem where
  date : Nat
  pos : PyVal
  artist : String
  song : String
  last_week : PyVal
  peak_pos : PyVal
  wks_on_chart : PyVal
deriving DecidableEq, Repr

/-- Loading one chart row through `BillboardItemLoader`: each scraped text
is passed through its field's input processor. -/
def loadItem (date : Nat) (pos artist song last_week peak_pos
    wks_on_chart : String) : BillboardItem :=
  ⟨date, pos_in pos, artist_in artist, song_in song,
    last_week_in last_week, peak_pos_in peak_pos,
    wks_on_chart_in wks_on_chart⟩

/-- The claim's reading of the last-week processor: NaN exactly when the
raw scraped text (before stripping) is the dash character. -/
def lastWeekClaim (s : String) : PyVal :=
  if s ≠ "-" then pyInt (st s) else .nan

/-- `int()` either returns an integer or raises; it never returns NaN. -/
theorem pyInt_ne_nan (s : String) : pyInt s ≠ .nan := by
  unfold pyInt
  split <;> (split <;> simp)

/-- C6 counterexample: on the scraped text `" - "` (dash surrounded by
whitespace) the loader yields NaN, while the claim's reading — NaN only
when the unstripped text is exactly `"-"` — would attempt `int("-")` and
raise. -/
theorem last_week_in_claim_counterexample :
    last_week_in " - " = .nan ∧ lastWeekClaim " - " = .err ∧
    last_week_in " - " ≠ lastWeekClaim " - " := by
  refine ⟨by decide, by decide, by decide⟩

/-- C6 (amended): every loaded chart-row record has exactly the fields
{date, pos, artist, song, last_week, peak_pos, wks_on_chart}; pos,
peak_pos and wks_on_chart are `int()` applied to the whitespace-stripped
text, artist and song are the stripped text, and last_week is NaN exactly
when the whitespace-stripped text is the dash `"-"`, and `int()` of the
stripped text otherwise. -/
theorem billboard_item_loader_spec :
    (∀ date pos artist song last_week peak_pos wks_on_chart,
      loadItem date pos artist song last_week peak_pos wks_on_chart =
        ⟨date, pyInt (pyStrip pos), pyStrip artist, pyStrip song,
          last_week_in last_week, pyInt (pyStrip peak_pos),
          pyInt (pyStrip wks_on_chart)⟩)
    ∧ (∀ s : String, last_week_in s = .nan ↔ pyStrip s = "-")
    ∧ (∀ s : String, pyStrip s ≠ "-" → last_week_in s = pyInt (pyStrip s)) := by
  refine ⟨fun _ _ _ _ _ _ _ => rfl, ?_, ?_⟩
  · intro s
    unfold last_week_in st
    constructor
    · intro h
      by_contra hne
      rw [if_pos hne] at h
      exact pyInt_ne_nan _ h
    · intro h
      rw [h]
      simp
  · intro s h
    unfold last_week_in st
    rw [if_pos h]

/-- C6 witness: on the scraped text `" 12 "` the stripped text is not the
dash, and the loader parses the integer. -/
theorem billboard_item_loader_spec_witness :
    pyStrip " 12 " ≠ "-" ∧ last_week_in " 12 " = pyInt (pyStrip " 12 ") :=
  ⟨by decide, billboard_item_loader_spec.2.2 " 12 " (by decide)⟩

/-! ## `BillboardSpider` weekly pagination
(src/music_data_scraper/music_data_scraper/spiders/billboard.py) -/

/-- Gregorian leap year. -/
def isLeapYear (y : Nat) : Bool :=
  (y % 4 == 0 && y % 100 != 0) || y % 400 == 0

/-- Days in the months before month `m` of year `y`. -/
def daysBeforeMonth (y m : Nat) : Nat :=
  ([31, if isLeapYear y then 29 else 28,
    31, 30, 31, 30, 31, 31, 30, 31, 30, 31].take (m - 1)).sum

/-- Proleptic Gregorian ordinal day number of the civil date `y-m-d`
(`0001-01-01` is day `1`), the number Python's `datetime.date` arithmetic
is equivalent to; `timedelta(weeks=1)` adds `7` to it. -/
def dayNumber (y m d : Nat) : Nat :=
  365 * (y - 1) + (y - 1) / 4 - (y - 1) / 100 + (y - 1) / 400 +
    daysBeforeMonth y m + d

/-- `resp_date = dt.date(1958, 8, 2)`: the date of the very first chart,
used for the single `start_urls` entry. -/
def startDay : Nat := dayNumber 1958 8 2

/-- `ending_date = dt.date(2023, 5, 27)`. -/
def endingDay : Nat := dayNumber 2023 5 27

/-- The dates of the charts the spider requests, starting from `d`: each
`parse` call advances `resp_date` by one week and follows the next chart
URL only while the new date does not pass `ending_date`. -/
def crawlDates (d : Nat) : List Nat :=
  d :: (if h : d + 7 ≤ endingDay then crawlDates (d + 7) else [])
termination_by endingDay + 7 - d
decreasing_by omega

/-- Closed form of the crawl: from a date a multiple of seven days before
the ending date, the spider fetches exactly the weekly dates up to and
including the ending date. -/
theorem crawlDates_formula (n : Nat) : ∀ d, endingDay - d = 7 * n →
    d ≤ endingDay →
    crawlDates d = (List.range (n + 1)).map (fun k => d + 7 * k) := by
  induction n with
  | zero =>
    intro d h hd
    rw [crawlDates, dif_neg (by omega)]
    norm_num [List.range_succ]
  | succ n ih =>
    intro d h hd
    rw [crawlDates, dif_pos (by omega), ih (d + 7) (by omega) (by omega)]
    conv_rhs => rw [List.range_succ_eq_map]
    simp only [List.map_cons, List.map_map, List.cons.injEq]
    refine ⟨by omega, ?_⟩
    apply List.map_congr_left
    intro k _
    simp only [Function.comp_apply]
    omega

/-- C5: the Billboard spider requests exactly one chart per week: the
sequence of requested chart dates is precisely the arithmetic progression
of step 7 days from the start date `1958-08-02` whose 3383rd and last
entry is the ending date `2023-05-27`, and no requested date lies after
the ending date. -/
theorem billboard_spider_dates :
    crawlDates startDay =
      (List.range 3383).map (fun k => startDay + 7 * k)
    ∧ startDay + 7 * 3382 = endingDay
    ∧ (∀ d ∈ crawlDates startDay, startDay ≤ d ∧ d ≤ endingDay) := by
  have h1 : endingDay - startDay = 7 * 3382 := by decide
  have h2 : startDay ≤ endingDay := by decide
  have h3 := crawlDates_formula 3382 startDay h1 h2
  refine ⟨h3, by omega, ?_⟩
  intro d hd
  rw [h3] at hd
  simp only [List.mem_map, List.mem_range] at hd
  obtain ⟨k, hk, rfl⟩ := hd
  omega

/-! ## `genres_popul` (src/utils.py lines 434–482)

The genre source series is a list of (period, genre-string) pairs; the
`re.search` regex test is abstracted as a Boolean matcher on the genre
string, which is all the invariant depends on. -/

/-- `genres_src.loc[lambda x: x != '[]']`: drop the rows whose genre string
is the empty list literal, before any counting. -/
def filteredSrc (genres_src : List (Nat × String)) : List (Nat × String) :=
  genres_src.filter (fun p => p.2 != "[]")

/-- `songs_no = genres_src.groupby(level=0).count()`: the number of
remaining rows in period `y`. -/
def songs_no (genres_src : List (Nat × String)) (y : Nat) : Nat :=
  (filteredSrc genres_src).countP (fun p => p.1 == y)

/-- The numerator of `genre_popul`: remaining rows of period `y` whose
genre string matches the genre pattern. -/
def genreCount (matcher : String → Bool) (genres_src : List (Nat × String))
    (y : Nat) : Nat :=
  (filteredSrc genres_src).countP (fun p => p.1 == y && matcher p.2)

/-- `genre_popul`: the per-period match count divided by the per-period
row count. -/
def genrePopul (matcher : String → Bool) (genres_src : List (Nat × String))
    (y : Nat) : ℚ :=
  (genreCount matcher genres_src y : ℚ) / (songs_no genres_src y : ℚ)

/-- C10: rows whose genre string is `"[]"` are removed before any
counting, the per-period numerator never exceeds its denominator, and for
every period that still has rows, the popularity value lies between `0`
and `1` inclusive. -/
theorem genres_popul_bounds :
    (∀ (p : Nat × String) (genres_src : List (Nat × String)), p.2 = "[]" →
      filteredSrc (p :: genres_src) = filteredSrc genres_src)
    ∧ (∀ (matcher : String → Bool) (genres_src : List (Nat × String))
        (y : Nat),
      genreCount matcher genres_src y ≤ songs_no genres_src y)
    ∧ (∀ (matcher : String → Bool) (genres_src : List (Nat × String))
        (y : Nat), 0 < songs_no genres_src y →
      0 ≤ genrePopul matcher genres_src y ∧
        genrePopul matcher genres_src y ≤ 1) := by
  have hle : ∀ (matcher : String → Bool) (genres_src : List (Nat × String))
      (y : Nat), genreCount matcher genres_src y ≤ songs_no genres_src y := by
    intro matcher genres_src y
    apply List.countP_mono_left
    intro p _ hp
    simp only [Bool.and_eq_true] at hp
    exact hp.1
  refine ⟨?_, hle, ?_⟩
  · intro p genres_src hp
    simp [filteredSrc, hp]
  · intro matcher genres_src y hpos
    have hden : (0 : ℚ) < (songs_no genres_src y : ℚ) := by
      exact_mod_cast hpos
    constructor
    · apply div_nonneg (by positivity) (le_of_lt hden)
    · rw [genrePopul, div_le_one hden]
      exact_mod_cast hle matcher genres_src y

/-- C10 witness: a one-row source in 1965 whose genre list matches; the
period has a positive row count and the popularity is within bounds. -/
theorem genres_popul_bounds_witness :
    0 < songs_no [(1965, "rock")] 1965 ∧
    (0 ≤ genrePopul (fun s => s == "rock") [(1965, "rock")] 1965 ∧
      genrePopul (fun s => s == "rock") [(1965, "rock")] 1965 ≤ 1) :=
  ⟨by decide,
    genres_popul_bounds.2.2 (fun s => s == "rock") [(1965, "rock")] 1965
      (by decide)⟩

/-! ## `spotify_audio_features` request loops (src/utils.py lines 81–317)

The network is modelled by explicit lists: each loop iteration consumes
the scripted response(s) to the request(s) it issues. A loop returns its
outcome together with the Authorization header used for each issued
request and the list of `time.sleep` delays it performed; exhausting the
scripted responses yields the `pending` outcome — the loop would issue yet
another request. -/

/-- An HTTP response as the enrichment loops inspect it: a status code,
the `retry-after` header (read only on 429), and the JSON body. -/
structure HttpResp where
  status : Nat
  retryAfter : Nat
  body : String
deriving DecidableEq, Repr

/-- A response of the token endpoint
`https://accounts.spotify.com/api/token`. -/
structure TokenResp where
  status : Nat
  accessToken : String
  body : String
deriving DecidableEq, Repr

/-- `auth_update` (src/utils.py lines 109–116): a client-credentials
exchange; any non-200 token response raises, otherwise the Authorization
header becomes the new bearer token. -/
def auth_update (token_resp : TokenResp) : Except String String :=
  if token_resp.status ≠ 200 then
    .error ("Token exception: " ++ token_resp.body)
  else
    .ok ("Bearer " ++ token_resp.accessToken)

/-- Outcome of the track-search request loop (src/utils.py lines
231–250). -/
inductive SearchOutcome where
  /-- Status 429: the retry time is printed and the whole
  `spotify_audio_features` run returns `False`. -/
  | rateLimitAbort (retryAfter : Nat)
  /-- `auth_update` raised on a non-200 token response. -/
  | tokenError (msg : String)
  /-- Status 200: the loop breaks with the response body. -/
  | ok (body : String)
  /-- Scripted responses exhausted: the loop would issue another
  request. -/
  | pending
deriving DecidableEq, Repr

/-- What a request loop did besides its outcome: the Authorization header
used for each issued request (or request pair), the `time.sleep` delays
performed, and the response bodies printed to the console. -/
structure LoopTrace where
  auths : List String
  sleeps : List Nat
  logs : List String
deriving DecidableEq, Repr

/-- The track-search `while True` loop: 429 aborts the run; 401 refreshes
the token and re-issues the request; any other non-200 status has its body
printed and is re-issued after `time.sleep(5)`; 200 breaks. -/
def searchLoop (auth : String) (resps : List HttpResp)
    (toks : List TokenResp) : SearchOutcome × LoopTrace :=
  match resps with
  | [] => (.pending, ⟨[], [], []⟩)
  | r :: rest =>
    if r.status = 429 then
      (.rateLimitAbort r.retryAfter, ⟨[auth], [], []⟩)
    else if r.status = 401 then
      match toks with
      | [] => (.pending, ⟨[auth], [], []⟩)
      | t :: ts =>
        match auth_update t with
        | .error e => (.tokenError e, ⟨[auth], [], []⟩)
        | .ok newAuth =>
          let next := searchLoop newAuth rest ts
          (next.1, ⟨auth :: next.2.auths, next.2.sleeps, next.2.logs⟩)
    else if r.status ≠ 200 then
      let next := searchLoop auth rest toks
      (next.1,
        ⟨auth :: next.2.auths, 5 :: next.2.sleeps, r.body :: next.2.logs⟩)
    else
      (.ok r.body, ⟨[auth], [], []⟩)

/-- Outcome of the `save_batch` audio-features/artists request loop
(src/utils.py lines 133–161). -/
inductive BatchOutcome where
  /-- Status 429 on the audio-features request: an exception is raised. -/
  | featRateLimit (body : String)
  /-- Status 429 on the artists request: an exception is raised. -/
  | artistRateLimit (body : String)
  /-- `auth_update` raised on a non-200 token response. -/
  | tokenError (msg : String)
  /-- Both statuses 200: the loop breaks with the two bodies. -/
  | ok (featBody artistBody : String)
  /-- Scripted responses exhausted: the loop would issue more requests. -/
  | pending
deriving DecidableEq, Repr

/-- The `save_batch` `while True` loop: each iteration issues the
audio-features and the artists requests (one scripted response pair);
feat 429 raises, else artist 429 raises, else any 401 refreshes the token
and re-issues both, else a non-200 status is printed and both are
re-issued after `time.sleep(5)`, else the loop breaks. -/
def batchLoop (auth : String) (resps : List (HttpResp × HttpResp))
    (toks : List TokenResp) : BatchOutcome × LoopTrace :=
  match resps with
  | [] => (.pending, ⟨[], [], []⟩)
  | (f, a) :: rest =>
    if f.status = 429 then
      (.featRateLimit f.body, ⟨[auth], [], []⟩)
    else if a.status = 429 then
      (.artistRateLimit a.body, ⟨[auth], [], []⟩)
    else if f.status = 401 ∨ a.status = 401 then
      match toks with
      | [] => (.pending, ⟨[auth], [], []⟩)
      | t :: ts =>
        match auth_update t with
        | .error e => (.tokenError e, ⟨[auth], [], []⟩)
        | .ok newAuth =>
          let next := batchLoop newAuth rest ts
          (next.1, ⟨auth :: next.2.auths, next.2.sleeps, next.2.logs⟩)
    else if f.status ≠ 200 then
      let next := batchLoop auth rest toks
      (next.1,
        ⟨auth :: next.2.auths, 5 :: next.2.sleeps, f.body :: next.2.logs⟩)
    else if a.status ≠ 200 then
      let next := batchLoop auth rest toks
      (next.1,
        ⟨auth :: next.2.auths, 5 :: next.2.sleeps, a.body :: next.2.logs⟩)
    else
      (.ok f.body a.body, ⟨[auth], [], []⟩)

/-- C3: a 429 response aborts the whole run and is never re-issued: on the
track-search request the loop ends at once with the abort outcome that
prints the retry-after time and makes the function return `False`; on the
audio-features or the artists request the loop ends at once with the
raising outcome. In each case the auth trace shows exactly the one
rate-limited request and no sleep is performed. -/
theorem rate_limit_aborts :
    (∀ (auth : String) (r : HttpResp) (rest : List HttpResp)
        (toks : List TokenResp), r.status = 429 →
      searchLoop auth (r :: rest) toks =
        (.rateLimitAbort r.retryAfter, ⟨[auth], [], []⟩))
    ∧ (∀ (auth : String) (f a : HttpResp)
        (rest : List (HttpResp × HttpResp)) (toks : List TokenResp),
        f.status = 429 →
      batchLoop auth ((f, a) :: rest) toks =
        (.featRateLimit f.body, ⟨[auth], [], []⟩))
    ∧ (∀ (auth : String) (f a : HttpResp)
        (rest : List (HttpResp × HttpResp)) (toks : List TokenResp),
        f.status ≠ 429 → a.status = 429 →
      batchLoop auth ((f, a) :: rest) toks =
        (.artistRateLimit a.body, ⟨[auth], [], []⟩)) := by
  refine ⟨?_, ?_, ?_⟩
  · intro auth r rest toks h
    simp [searchLoop, h]
  · intro auth f a rest toks h
    simp [batchLoop, h]
  · intro auth f a rest toks hf ha
    simp [batchLoop, hf, ha]

/-- C3 witness: a concrete 429 search response and a concrete 429
audio-features response both end their loops at once. -/
theorem rate_limit_aborts_witness :
    (429 : Nat) = 429 ∧
    searchLoop "B t" [⟨429, 60, "limit"⟩] [] =
      (.rateLimitAbort 60, ⟨["B t"], [], []⟩) ∧
    batchLoop "B t" [(⟨429, 60, "limit"⟩, ⟨200, 0, "ok"⟩)] [] =
      (.featRateLimit "limit", ⟨["B t"], [], []⟩) :=
  ⟨rfl,
    rate_limit_aborts.1 "B t" ⟨429, 60, "limit"⟩ [] [] rfl,
    rate_limit_aborts.2.1 "B t" ⟨429, 60, "limit"⟩ ⟨200, 0, "ok"⟩ [] [] rfl⟩

/-- C4: on any status other than 200, 429 and 401 both loops print the
error body to the console, sleep exactly 5 seconds and re-issue the same
request with the unchanged header; iterating, `n` consecutive such
responses leave the loop still pending after `n` identical requests, `n`
constant 5-second delays and `n` logged bodies, so the delay never grows
and no retry bound exists — the loop is not guaranteed to terminate. -/
theorem non_200_blind_retry :
    (∀ (auth : String) (r : HttpResp) (rest : List HttpResp)
        (toks : List TokenResp),
        r.status ≠ 200 → r.status ≠ 429 → r.status ≠ 401 →
      searchLoop auth (r :: rest) toks =
        ((searchLoop auth rest toks).1,
          ⟨auth :: (searchLoop auth rest toks).2.auths,
            5 :: (searchLoop auth rest toks).2.sleeps,
            r.body :: (searchLoop auth rest toks).2.logs⟩))
    ∧ (∀ (auth : String) (f a : HttpResp)
        (rest : List (HttpResp × HttpResp)) (toks : List TokenResp),
        f.status ≠ 200 → f.status ≠ 429 → f.status ≠ 401 →
        a.status ≠ 429 → a.status ≠ 401 →
      batchLoop auth ((f, a) :: rest) toks =
        ((batchLoop auth rest toks).1,
          ⟨auth :: (batchLoop auth rest toks).2.auths,
            5 :: (batchLoop auth rest toks).2.sleeps,
            f.body :: (batchLoop auth rest toks).2.logs⟩))
    ∧ (∀ (auth : String) (r : HttpResp) (toks : List TokenResp) (n : Nat),
        r.status ≠ 200 → r.status ≠ 429 → r.status ≠ 401 →
      searchLoop auth (List.replicate n r) toks =
        (.pending, ⟨List.replicate n auth, List.replicate n 5,
          List.replicate n r.body⟩)) := by
  have step : ∀ (auth : String) (r : HttpResp) (rest : List HttpResp)
      (toks : List TokenResp),
      r.status ≠ 200 → r.status ≠ 429 → r.status ≠ 401 →
      searchLoop auth (r :: rest) toks =
        ((searchLoop auth rest toks).1,
          ⟨auth :: (searchLoop auth rest toks).2.auths,
            5 :: (searchLoop auth rest toks).2.sleeps,
            r.body :: (searchLoop auth rest toks).2.logs⟩) := by
    intro auth r rest toks h200 h429 h401
    simp [searchLoop, h200, h429, h401]
  refine ⟨step, ?_, ?_⟩
  · intro auth f a rest toks h200 h429 h401 ha429 ha401
    have hor : ¬(f.status = 401 ∨ a.status = 401) := by
      simp [h401, ha401]
    simp [batchLoop, h200, h429, hor, ha429]
  · intro auth r toks n h200 h429 h401
    induction n with
    | zero => simp [searchLoop]
    | succ n ih =>
      rw [List.replicate_succ, step auth r _ toks h200 h429 h401, ih]
      simp [List.replicate_succ]

/-- C4 witness: a 500 response satisfies the hypotheses; four consecutive
500 responses leave the search loop pending after four identical requests,
four constant 5-second sleeps and four logged bodies. -/
theorem non_200_blind_retry_witness :
    ((500 : Nat) ≠ 200 ∧ (500 : Nat) ≠ 429 ∧ (500 : Nat) ≠ 401) ∧
    searchLoop "B t" (List.replicate 4 ⟨500, 0, "server error"⟩) [] =
      (.pending, ⟨List.replicate 4 "B t", List.replicate 4 5,
        List.replicate 4 "server error"⟩) :=
  ⟨⟨by decide, by decide, by decide⟩,
    non_200_blind_retry.2.2 "B t" ⟨500, 0, "server error"⟩ [] 4
      (by decide) (by decide) (by decide)⟩

/-- C8: a 401 response makes either loop refresh the token — a
client-credentials exchange whose bearer token replaces the Authorization
header — and re-issue the original request with the new header; the
refresh itself raises exactly when the token endpoint does not answer
200. -/
theorem expired_token_refresh :
    (∀ token_resp : TokenResp, token_resp.status ≠ 200 →
      auth_update token_resp =
        .error ("Token exception: " ++ token_resp.body))
    ∧ (∀ token_resp : TokenResp, token_resp.status = 200 →
      auth_update token_resp = .ok ("Bearer " ++ token_resp.accessToken))
    ∧ (∀ (auth : String) (r : HttpResp) (rest : List HttpResp)
        (t : TokenResp) (ts : List TokenResp),
        r.status = 401 → t.status = 200 →
      searchLoop auth (r :: rest) (t :: ts) =
        ((searchLoop ("Bearer " ++ t.accessToken) rest ts).1,
          ⟨auth :: (searchLoop ("Bearer " ++ t.accessToken) rest ts).2.auths,
            (searchLoop ("Bearer " ++ t.accessToken) rest ts).2.sleeps,
            (searchLoop ("Bearer " ++ t.accessToken) rest ts).2.logs⟩))
    ∧ (∀ (auth : String) (f a : HttpResp)
        (rest : List (HttpResp × HttpResp)) (t : TokenResp)
        (ts : List TokenResp),
        f.status ≠ 429 → a.status ≠ 429 →
        (f.status = 401 ∨ a.status = 401) → t.status = 200 →
      batchLoop auth ((f, a) :: rest) (t :: ts) =
        ((batchLoop ("Bearer " ++ t.accessToken) rest ts).1,
          ⟨auth :: (batchLoop ("Bearer " ++ t.accessToken) rest ts).2.auths,
            (batchLoop ("Bearer " ++ t.accessToken) rest ts).2.sleeps,
            (batchLoop ("Bearer " ++ t.accessToken) rest ts).2.logs⟩)) := by
  refine ⟨?_, ?_, ?_, ?_⟩
  · intro tr h
    simp [auth_update, h]
  · intro tr h
    simp [auth_update, h]
  · intro auth r rest t ts hr ht
    simp [searchLoop, hr, auth_update, ht]
  · intro auth f a rest t ts hf ha hor ht
    rcases hor with h | h
    · simp [batchLoop, hf, ha, h, auth_update, ht]
    · simp [batchLoop, hf, ha, h, auth_update, ht]

/-- C8 witness: a concrete 401 search response followed by a 200 response,
with a 200 token exchange: the loop refreshes the header to the new bearer
token and the retried request succeeds. -/
theorem expired_token_refresh_witness :
    ((401 : Nat) = 401 ∧ (200 : Nat) = 200) ∧
    searchLoop "Bearer old" [⟨401, 0, "expired"⟩, ⟨200, 0, "found"⟩]
        [⟨200, "new", "tok"⟩] =
      ((searchLoop "Bearer new" [⟨200, 0, "found"⟩] []).1,
        ⟨"Bearer old" ::
          (searchLoop "Bearer new" [⟨200, 0, "found"⟩] []).2.auths,
          (searchLoop "Bearer new" [⟨200, 0, "found"⟩] []).2.sleeps,
          (searchLoop "Bearer new" [⟨200, 0, "found"⟩] []).2.logs⟩) :=
  ⟨⟨rfl, rfl⟩,
    expired_token_refresh.2.2.1 "Bearer old" ⟨401, 0, "expired"⟩
      [⟨200, 0, "found"⟩] ⟨200, "new", "tok"⟩ [] rfl rfl⟩

/-! ## `spotify_audio_features` CSV batching (src/utils.py lines 196–312)

The per-row loop body is modelled by its batching skeleton: row records
are opaque values of a type `α`, and the log file by the list of `to_csv`
calls performed on it. -/

/-- One `to_csv` call on the enrichment log file. -/
inductive CsvWrite (α : Type) where
  /-- `to_csv(..., index=False, sep=';')`: write the file with a header. -/
  | writeWithHeader (rows : List α)
  /-- `to_csv(..., mode='a', header=False, index=False, sep=';')`: append
  the rows with no header. -/
  | appendNoHeader (rows : List α)
deriving DecidableEq, Repr

/-- The loop state of `spotify_audio_features`: the batch container, the
flushed-batch counter, and the write trace of the log file. -/
structure BatchState (α : Type) where
  batch_list : List α
  batch_i : Nat
  writes : List (CsvWrite α)
deriving DecidableEq, Repr

/-- `batch_size = 50`. -/
def batch_size : Nat := 50

/-- The tail of the per-row loop body (lines 277–304): append the row's
record to the batch container; when the container reaches `batch_size`
rows, flush it — writing the file with a header if it is the first full
batch (`batch_i == 0`), appending without a header otherwise — and clear
the container. -/
def stepRow {α : Type} (s : BatchState α) (r : α) : BatchState α :=
  let batch := s.batch_list ++ [r]
  if batch.length = batch_size then
    { batch_list := []
      batch_i := s.batch_i + 1
      writes := s.writes ++
        [if s.batch_i = 0 then CsvWrite.writeWithHeader batch
         else CsvWrite.appendNoHeader batch] }
  else
    { s with batch_list := batch }

/-- After the input is exhausted (lines 306–312), any remaining partial
batch is appended without a header. -/
def flushRemaining {α : Type} (s : BatchState α) : List (CsvWrite α) :=
  if s.batch_list.isEmpty then
    s.writes
  else
    s.writes ++ [CsvWrite.appendNoHeader s.batch_list]

/-- The complete write trace of the enrichment log over an input list of
row records. -/
def runBatching {α : Type} (rows : List α) : List (CsvWrite α) :=
  flushRemaining (rows.foldl stepRow ⟨[], 0, []⟩)

/-- Modelled from the claim's words: the expected write trace — the input
in chunks of `batch_size`, the first full batch written with a header,
every later flush a header-less append, and the trailing partial batch
appended at the end. -/
def specWrites {α : Type} (rows : List α) (bi : Nat) : List (CsvWrite α) :=
  if rows.isEmpty then []
  else if rows.length < batch_size then [CsvWrite.appendNoHeader rows]
  else
    (if bi = 0 then CsvWrite.writeWithHeader (rows.take batch_size)
     else CsvWrite.appendNoHeader (rows.take batch_size)) ::
      specWrites (rows.drop batch_size) (bi + 1)
termination_by rows.length
decreasing_by
  simp only [List.length_drop, batch_size] at *
  omega

/-- The rows carried by one `to_csv` call. -/
def flushedRows {α : Type} : CsvWrite α → List α
  | CsvWrite.writeWithHeader rs => rs
  | CsvWrite.appendNoHeader rs => rs

/-- Folding rows that do not fill the container: they only accumulate. -/
theorem foldl_no_flush {α : Type} : ∀ (rows b : List α) (bi : Nat)
    (ws : List (CsvWrite α)), b.length + rows.length < batch_size →
    rows.foldl stepRow ⟨b, bi, ws⟩ = ⟨b ++ rows, bi, ws⟩ := by
  intro rows
  induction rows with
  | nil =>
    intro b bi ws h
    simp
  | cons r rest ih =>
    intro b bi ws h
    simp only [List.length_cons] at h
    have hc : ¬((b ++ [r]).length = batch_size) := by
      simp only [List.length_append, List.length_cons, List.length_nil]
      omega
    simp only [List.foldl_cons]
    have hst : stepRow ⟨b, bi, ws⟩ r = ⟨b ++ [r], bi, ws⟩ := by
      simp only [stepRow, hc, if_false]
    rw [hst, ih (b ++ [r]) bi ws (by simp; omega)]
    simp

/-- Folding rows that exactly fill the container: the batch is flushed —
with a header exactly when it is the first full batch — and the container
is cleared. -/
theorem foldl_flush {α : Type} : ∀ (rows b : List α) (bi : Nat)
    (ws : List (CsvWrite α)), rows ≠ [] →
    b.length + rows.length = batch_size →
    rows.foldl stepRow ⟨b, bi, ws⟩ =
      ⟨[], bi + 1, ws ++
        [if bi = 0 then CsvWrite.writeWithHeader (b ++ rows)
         else CsvWrite.appendNoHeader (b ++ rows)]⟩ := by
  intro rows
  induction rows with
  | nil =>
    intro b bi ws hne h
    contradiction
  | cons r rest ih =>
    intro b bi ws hne h
    simp only [List.length_cons] at h
    by_cases hr : rest = []
    · subst hr
      simp only [List.length_nil] at h
      have hc : (b ++ [r]).length = batch_size := by
        simp only [List.length_append, List.length_cons, List.length_nil]
        omega
      simp only [List.foldl_cons, List.foldl_nil, stepRow, hc, if_true]
    · have hrl : 0 < rest.length := List.length_pos.mpr hr
      have hc : ¬((b ++ [r]).length = batch_size) := by
        simp only [List.length_append, List.length_cons, List.length_nil]
        omega
      simp only [List.foldl_cons]
      have hst : stepRow ⟨b, bi, ws⟩ r = ⟨b ++ [r], bi, ws⟩ := by
        simp only [stepRow, hc, if_false]
      rw [hst, ih (b ++ [r]) bi ws hr (by simp; omega)]
      simp [List.append_assoc]

/-- The invariant of the batching loop: from an empty container, counter
`bi` and trace `ws`, running the loop and the final partial flush extends
the trace by exactly the claim's expected write sequence. -/
theorem flushRemaining_foldl {α : Type} : ∀ (n : Nat) (rows : List α),
    rows.length ≤ n → ∀ (bi : Nat) (ws : List (CsvWrite α)),
    flushRemaining (rows.foldl stepRow ⟨[], bi, ws⟩) =
      ws ++ specWrites rows bi := by
  intro n
  induction n with
  | zero =>
    intro rows h bi ws
    have : rows = [] := List.length_eq_zero.mp (Nat.le_zero.mp h)
    subst this
    simp [flushRemaining, specWrites]
  | succ n ih =>
    intro rows h bi ws
    by_cases h0 : rows = []
    · subst h0
      simp [flushRemaining, specWrites]
    by_cases hlt : rows.length < batch_size
    · rw [foldl_no_flush rows [] bi ws (by simpa using hlt)]
      rw [specWrites]
      simp [flushRemaining, h0, hlt, List.isEmpty_iff]
    · have hge : batch_size ≤ rows.length := Nat.le_of_not_lt hlt
      have hbpos : 0 < batch_size := by simp [batch_size]
      have htne : rows.take batch_size ≠ [] := by
        intro hcontra
        have := congrArg List.length hcontra
        simp only [List.length_take, List.length_nil] at this
        omega
      have htlen : (List.take batch_size rows).length = batch_size := by
        simp only [List.length_take]
        omega
      conv_lhs => rw [(List.take_append_drop batch_size rows).symm]
      rw [List.foldl_append,
        foldl_flush (rows.take batch_size) [] bi ws htne
          (by simpa using htlen),
        ih (rows.drop batch_size)
          (by simp only [List.length_drop]; omega) (bi + 1)]
      conv_rhs => rw [specWrites]
      simp only [List.isEmpty_iff, h0, if_false, hlt, List.nil_append]
      simp [List.append_assoc]

/-- The loop trace over the whole input equals the claim's expected write
sequence starting from batch counter `0`. -/
theorem runBatching_eq_specWrites {α : Type} (rows : List α) :
    runBatching rows = specWrites rows 0 := by
  have := flushRemaining_foldl rows.length rows le_rfl 0 []
  simpa [runBatching] using this

/-- With a nonzero batch counter, every expected write is a header-less
append. -/
theorem specWrites_all_append {α : Type} : ∀ (n : Nat) (rows : List α),
    rows.length ≤ n → ∀ (bi : Nat), bi ≠ 0 →
    ∀ w ∈ specWrites rows bi, ∃ rs, w = CsvWrite.appendNoHeader rs := by
  intro n
  induction n with
  | zero =>
    intro rows h bi hbi w hw
    have : rows = [] := List.length_eq_zero.mp (Nat.le_zero.mp h)
    subst this
    simp [specWrites] at hw
  | succ n ih =>
    intro rows h bi hbi w hw
    have hbpos : 0 < batch_size := by simp [batch_size]
    rw [specWrites] at hw
    split_ifs at hw with h0 hlt
    · simp at hw
    · simp only [List.mem_singleton] at hw
      exact ⟨rows, hw⟩
    · simp only [List.mem_cons] at hw
      rcases hw with rfl | hw
      · simp [hbi]
      · exact ih (rows.drop batch_size)
          (by simp only [List.length_drop]; omega) (bi + 1)
          (by omega) w hw

/-- The expected writes carry the whole input, in order, exactly once. -/
theorem specWrites_join {α : Type} : ∀ (n : Nat) (rows : List α),
    rows.length ≤ n → ∀ (bi : Nat),
    ((specWrites rows bi).map flushedRows).flatten = rows := by
  intro n
  induction n with
  | zero =>
    intro rows h bi
    have : rows = [] := List.length_eq_zero.mp (Nat.le_zero.mp h)
    subst this
    simp [specWrites]
  | succ n ih =>
    intro rows h bi
    have hbpos : 0 < batch_size := by simp [batch_size]
    rw [specWrites]
    split_ifs with h0 hlt hbi
    · rw [List.isEmpty_iff] at h0
      subst h0
      simp
    · simp [flushedRows]
    · simp only [List.map_cons, List.flatten_cons, flushedRows]
      rw [ih (rows.drop batch_size)
        (by simp only [List.length_drop]; omega) (bi + 1),
        List.take_append_drop]
    · simp only [List.map_cons, List.flatten_cons, flushedRows]
      rw [ih (rows.drop batch_size)
        (by simp only [List.length_drop]; omega) (bi + 1),
        List.take_append_drop]

/-- Every expected header-bearing write carries exactly one full batch. -/
theorem specWrites_header_size {α : Type} : ∀ (n : Nat) (rows : List α),
    rows.length ≤ n → ∀ (bi : Nat) (rs : List α),
    CsvWrite.writeWithHeader rs ∈ specWrites rows bi →
    rs.length = batch_size := by
  intro n
  induction n with
  | zero =>
    intro rows h bi rs hw
    have : rows = [] := List.length_eq_zero.mp (Nat.le_zero.mp h)
    subst this
    simp [specWrites] at hw
  | succ n ih =>
    intro rows h bi rs hw
    have hbpos : 0 < batch_size := by simp [batch_size]
    rw [specWrites] at hw
    split_ifs at hw with h0 hlt hbi
    · simp at hw
    · simp at hw
    · simp only [List.mem_cons] at hw
      rcases hw with heq | hw
      · have : rs = rows.take batch_size :=
          (CsvWrite.writeWithHeader.injEq _ _).mp heq
        subst this
        simp only [List.length_take]
        omega
      · exact ih (rows.drop batch_size)
          (by simp only [List.length_drop]; omega) (bi + 1) rs hw
    · simp only [List.mem_cons] at hw
      rcases hw with heq | hw
      · exact absurd heq (by simp)
      · exact ih (rows.drop batch_size)
          (by simp only [List.length_drop]; omega) (bi + 1) rs hw

/-- C7: `spotify_audio_features` writes its CSV log incrementally in
batches of the fixed size 50: the write trace is exactly the expected
sequence `specWrites rows 0`; when a full batch exists the first flush
writes the file with a header and carries exactly 50 rows (as does every
header-bearing write); every write after the first is a header-less
append; a partial-only input is appended as a single header-less write
after the input is exhausted; and the writes carry the whole input in
order, exactly once. -/
theorem spotify_batching_spec {α : Type} (rows : List α) :
    runBatching rows = specWrites rows 0
    ∧ (batch_size ≤ rows.length →
        (runBatching rows).head? =
          some (CsvWrite.writeWithHeader (rows.take batch_size)))
    ∧ (∀ w ∈ (runBatching rows).tail, ∃ rs, w = CsvWrite.appendNoHeader rs)
    ∧ (rows ≠ [] → rows.length < batch_size →
        runBatching rows = [CsvWrite.appendNoHeader rows])
    ∧ (∀ rs : List α, CsvWrite.writeWithHeader rs ∈ runBatching rows →
        rs.length = batch_size)
    ∧ ((runBatching rows).map flushedRows).flatten = rows := by
  have hrw := runBatching_eq_specWrites rows
  have hbpos : 0 < batch_size := by simp [batch_size]
  refine ⟨hrw, ?_, ?_, ?_, ?_, ?_⟩
  · intro hge
    have hne : rows ≠ [] := by
      intro hc
      subst hc
      simp only [List.length_nil] at hge
      omega
    rw [hrw, specWrites,
      if_neg (by simpa [List.isEmpty_iff] using hne),
      if_neg (by omega)]
    simp
  · intro w hw
    rw [hrw] at hw
    rw [specWrites] at hw
    split_ifs at hw with h0 hlt hbi
    · simp at hw
    · simp at hw
    · simp only [List.tail_cons] at hw
      exact specWrites_all_append (rows.drop batch_size).length _ le_rfl
        1 one_ne_zero w hw
    · exact absurd rfl hbi
  · intro hne hlt
    rw [hrw, specWrites,
      if_neg (by simpa [List.isEmpty_iff] using hne), if_pos hlt]
  · intro rs hw
    rw [hrw] at hw
    exact specWrites_header_size rows.length rows le_rfl 0 rs hw
  · rw [hrw]
    exact specWrites_join rows.length rows le_rfl 0

/-- C7 witness: on an input of 120 opaque rows the hypotheses hold and the
trace starts with the header-bearing write of the first 50 rows. -/
theorem spotify_batching_spec_witness :
    batch_size ≤ (List.range 120).length ∧
    (runBatching (List.range 120)).head? =
      some (CsvWrite.writeWithHeader ((List.range 120).take batch_size)) :=
  ⟨by decide, (spotify_batching_spec (List.range 120)).2.1 (by decide)⟩

end MusicProject
